import Mathlib

/-!
Verification development for the khmerchess game-session engine.

The definitions below are a shallow embedding of the TypeScript source:
  - src/services/firebaseService.ts : createGame, joinGame
  - src/App.tsx and src/unnamed/part_001, part_002 : useGame.makeMove,
    triggerAIMove, handleMove
  - src/unnamed/part_000 : the types module (GameStatus) and the ChessBoard
    component (getValidFen and the two board-construction paths)

The chess.js rules engine is an external library (spec section 1 treats it as
a collaborator, not part of the core); it is modelled by the ChessEngine
record of oracle functions.  The Firestore document store is modelled by an
Option GameDoc per session id plus explicit partial updates (GameUpdate), one
per updateDoc call, applied in program order.
-/

namespace KhmerChess

/-- GameStatus enum from src/unnamed/part_000 (types module). -/
inductive GameStatus where
  | PENDING
  | ACTIVE
  | COMPLETED
  | ABANDONED
  deriving DecidableEq, Repr

/-- The player record stored under the white / black fields of a game
document: { uid, name, rating } as written by createGame and joinGame. -/
structure PlayerInfo where
  uid : String
  name : String
  rating : Int
  deriving DecidableEq, Repr

/-- The fields of a chess.js Move object that the engine code reads:
from, to (squares), san notation string, and whether a piece was captured.
from is a Lean keyword, hence fromSq / toSq. -/
structure MoveRec where
  fromSq : String
  toSq : String
  san : String
  captured : Bool
  deriving DecidableEq, Repr

/-- A game document in the games collection, with the fields written by
createGame, joinGame and makeMove.  Fields that a freshly created document
does not contain (Firestore absent = JS undefined) are modelled by none,
false for the isAI flag and the empty string for difficulty, matching their
JS falsiness.  Timestamps are modelled by Nat counters. -/
structure GameDoc where
  white : PlayerInfo
  black : Option PlayerInfo
  fen : String
  turn : String
  status : GameStatus
  winner : Option String := none
  lastMove : Option (String × String) := none
  isAI : Bool := false
  difficulty : String := ""
  createdAt : Nat := 0
  startTime : Option Nat := none
  lastUpdated : Option Nat := none
  deriving DecidableEq, Repr

/-- One updateDoc call: the set of fields it writes.  A field that is none is
not mentioned by the call and keeps its previous value. -/
structure GameUpdate where
  fen? : Option String := none
  turn? : Option String := none
  status? : Option GameStatus := none
  winner? : Option String := none
  lastMove? : Option (String × String) := none
  black? : Option PlayerInfo := none
  startTime? : Option Nat := none
  lastUpdated? : Option Nat := none
  deriving DecidableEq, Repr

/-- Merge one optional field of an update into an optional document field. -/
def mergeOptField (new : Option α) (old : Option α) : Option α :=
  match new with
  | some v => some v
  | none => old

/-- Apply one updateDoc call to a document (Firestore field merge). -/
def applyUpdate (d : GameDoc) (u : GameUpdate) : GameDoc :=
  { d with
    fen := u.fen?.getD d.fen,
    turn := u.turn?.getD d.turn,
    status := u.status?.getD d.status,
    winner := mergeOptField u.winner? d.winner,
    lastMove := mergeOptField u.lastMove? d.lastMove,
    black := mergeOptField u.black? d.black,
    startTime := mergeOptField u.startTime? d.startTime,
    lastUpdated := mergeOptField u.lastUpdated? d.lastUpdated }

/-- Apply a list of updateDoc calls in program order. -/
def applyUpdates (d : GameDoc) (us : List GameUpdate) : GameDoc :=
  us.foldl applyUpdate d

/-- Abstraction of the external chess.js engine (consumed, not built).
moveResult fen mv is the Move object returned by (new Chess fen).move mv, or
none when the constructor or move call throws (illegal move / bad fen).
fenAfter fen mv is game.fen() after that successful move; the isGameOver,
isCheckmate and isCheck predicates are evaluated on a position given by its
fen.  moveSan fen s / fenAfterSan fen s are the same for a move given as a
notation string, as used by triggerAIMove.  ctorOk fen says whether
new Chess fen succeeds. -/
structure ChessEngine where
  moveResult : String → MoveRec → Option MoveRec
  fenAfter : String → MoveRec → String
  moveSan : String → String → Option MoveRec
  fenAfterSan : String → String → String
  isGameOver : String → Bool
  isCheckmate : String → Bool
  isCheck : String → Bool
  ctorOk : String → Bool

/-- The STARTING_FEN constant shared by firebaseService.ts, the App files and
the ChessBoard component: the standard chess starting position. -/
def STARTING_FEN : String :=
  "rnbqkbnr/pppppppp/8/8/8/8/PPPPPPPP/RNBQKBNR w KQkq - 0 1"

/-- A Firebase auth User, restricted to the fields the engine code reads. -/
structure UserRec where
  uid : String
  email : Option String
  deriving DecidableEq, Repr

/-- A user profile document, restricted to the fields the engine code reads. -/
structure ProfileRec where
  username : String
  elo : Int
  deriving DecidableEq, Repr

/-- JS a || b for strings: the empty string is falsy and falls through. -/
def jsOrStr (a : Option String) (b : String) : String :=
  match a with
  | some s => if s = "" then b else s
  | none => b

/-- JS a || b for numbers: 0 is falsy and falls through. -/
def jsOrInt (a : Option Int) (b : Int) : Int :=
  match a with
  | some n => if n = 0 then b else n
  | none => b

/-- email.split at-sign [0]: the part of the address before the first at
sign (the whole string when there is none). -/
def emailLocal (email : String) : String :=
  String.mk (email.data.takeWhile (fun c => c != '@'))

/-- The player record both createGame and joinGame write:
uid, name = profile?.username || user.email?.split(@)[0] || "Pilot",
rating = profile?.elo || 1200. -/
def playerRecord (user : UserRec) (profile : Option ProfileRec) : PlayerInfo :=
  { uid := user.uid,
    name := jsOrStr (profile.map ProfileRec.username)
              (jsOrStr (user.email.map emailLocal) "Pilot"),
    rating := jsOrInt (profile.map ProfileRec.elo) 1200 }

/-- createGame, src/services/firebaseService.ts lines 65-79: addDoc a fresh
document { white, black: null, fen: STARTING_FEN, turn: "w", status: PENDING,
createdAt } into the games collection and return its id.  The store-assigned
document id and server timestamp are passed as parameters. -/
def createGame (user : UserRec) (profile : Option ProfileRec)
    (gameId : String) (now : Nat) : GameDoc × String :=
  ({ white := playerRecord user profile,
     black := none,
     fen := STARTING_FEN,
     turn := "w",
     status := GameStatus.PENDING,
     createdAt := now }, gameId)

/-- The three errors joinGame can throw, in their source wording:
"Mothership Error: Game link not found." / "Lockout: Game is already full or
closed." / "Recursive Error: You are already White.". -/
inductive JoinError where
  | SessionNotFound
  | SessionNotJoinable
  | SelfJoinRejected
  deriving DecidableEq, Repr

/-- The precondition checks joinGame runs against the snapshot returned by
getDoc (firebaseService.ts lines 83-88), in source order: missing document,
then status !== PENDING, then white.uid === user.uid. -/
def joinGameCheck (snap : Option GameDoc) (user : UserRec) : Option JoinError :=
  match snap with
  | none => some JoinError.SessionNotFound
  | some data =>
      if data.status ≠ GameStatus.PENDING then some JoinError.SessionNotJoinable
      else if data.white.uid = user.uid then some JoinError.SelfJoinRejected
      else none

/-- The unconditional updateDoc joinGame issues after its checks pass
(firebaseService.ts lines 90-98): black := joiner record, status := ACTIVE,
startTime := server timestamp. -/
def joinUpdate (user : UserRec) (profile : Option ProfileRec) (now : Nat) :
    GameUpdate :=
  { black? := some (playerRecord user profile),
    status? := some GameStatus.ACTIVE,
    startTime? := some now }

/-- joinGame, src/services/firebaseService.ts lines 81-100, run atomically
(snapshot = current store): getDoc, the three checks, then updateDoc.
Returns (thrown error or returned gameId, store afterwards). -/
def joinGame (gameId : String) (store : Option GameDoc) (user : UserRec)
    (profile : Option ProfileRec) (now : Nat) :
    Except JoinError String × Option GameDoc :=
  match store with
  | none => (Except.error JoinError.SessionNotFound, none)
  | some data =>
      if data.status ≠ GameStatus.PENDING then
        (Except.error JoinError.SessionNotJoinable, some data)
      else if data.white.uid = user.uid then
        (Except.error JoinError.SelfJoinRejected, some data)
      else
        (Except.ok gameId, some (applyUpdate data (joinUpdate user profile now)))

/-- The write half of a joinGame call when its read half saw snapshot snap:
if the checks on snap fail the call throws and writes nothing; otherwise the
unconditional updateDoc lands on whatever the store holds by then (store),
which may no longer equal snap — the read-then-write is not atomic. -/
def joinWritePhase (gameId : String) (snap : Option GameDoc) (user : UserRec)
    (profile : Option ProfileRec) (now : Nat) (store : Option GameDoc) :
    Except JoinError String × Option GameDoc :=
  match joinGameCheck snap user with
  | some e => (Except.error e, store)
  | none =>
      (Except.ok gameId, store.map (fun d => applyUpdate d (joinUpdate user profile now)))

/-- gameState.white.uid === userId (userId may be null). -/
def userIsWhite (gs : GameDoc) (userId : Option String) : Bool :=
  match userId with
  | some u => gs.white.uid = u
  | none => false

/-- gameState.black?.uid === userId: false when black is absent or userId is
null (undefined === null is false in JS). -/
def userIsBlack (gs : GameDoc) (userId : Option String) : Bool :=
  match gs.black, userId with
  | some b, some u => b.uid = u
  | _, _ => false

/-- The turn-check condition of makeMove (part_002 line 108 / App.tsx
lines 118-120): (currentTurn === "w" && !isWhite) ||
(currentTurn === "b" && !isBlack). -/
def turnMismatch (gs : GameDoc) (userId : Option String) : Bool :=
  (gs.turn = "w" && !(userIsWhite gs userId)) ||
  (gs.turn = "b" && !(userIsBlack gs userId))

/-- currentTurn === "w" ? "b" : "w". -/
def flipTurn (t : String) : String :=
  if t = "w" then "b" else "w"

/-- The first updateDoc issued by makeMove when the post-move position is
game over (part_002 lines 113-119 / App.tsx lines 130-134): status :=
COMPLETED and winner := side that just moved on checkmate, otherwise draw. -/
def terminalUpdate (E : ChessEngine) (afterFen : String) (currentTurn : String) :
    GameUpdate :=
  { status? := some GameStatus.COMPLETED,
    winner? := some (if E.isCheckmate afterFen then
        (if currentTurn = "w" then "white" else "black") else "draw") }

/-- The second updateDoc issued by makeMove (part_002 lines 121-126 / App.tsx
lines 138-143): fen := newFen, turn flipped, lastMove := {from, to},
lastUpdated := server timestamp. -/
def moveUpdate (newFen : String) (currentTurn : String) (mv : MoveRec)
    (now : Nat) : GameUpdate :=
  { fen? := some newFen,
    turn? := some (flipTurn currentTurn),
    lastMove? := some (mv.fromSq, mv.toSq),
    lastUpdated? := some now }

/-- makeMove from useGame, src/unnamed/part_002 lines 102-127 (identical in
core to src/App.tsx lines 111-147 and part_001): missing gameId or gameState
returns silently; turn mismatch returns silently; then
new Chess(gameState.fen) . move(move) runs — a throw (Except.error) escapes
makeMove uncaught; on success, if game.isGameOver() on the post-move position
an updateDoc writing status and winner is awaited first, and then a second
updateDoc writes fen, turn, lastMove and lastUpdated.  The result is the list
of updateDoc calls issued, in order. -/
def makeMove (E : ChessEngine) (gameId : Option String)
    (gameState : Option GameDoc) (userId : Option String) (move : MoveRec)
    (newFen : String) (now : Nat) : Except Unit (List GameUpdate) :=
  match gameId, gameState with
  | some _, some gs =>
      if turnMismatch gs userId then Except.ok []
      else
        match E.moveResult gs.fen move with
        | none => Except.error ()
        | some _ =>
            let afterFen := E.fenAfter gs.fen move
            Except.ok
              ((if E.isGameOver afterFen then [terminalUpdate E afterFen gs.turn]
                else []) ++ [moveUpdate newFen gs.turn move now])
  | _, _ => Except.ok []

/-- triggerAIMove from the AI-move useEffect, src/unnamed/part_002 lines
189-209.  botMoveStr models the string resolved from getBotMove (the
move-suggestion service returns "" on failure, src/services/geminiService.ts
lines 26-41).  The trigger fires only when status is ACTIVE, isAI, it is
black's turn and no request is in flight (the isAnalyzing single-flight
guard).  The first component counts the getBotMove requests issued by this
invocation; the second is the makeMove outcome — gameLogic.move and the
makeMove call sit inside try/catch, so a thrown invalid move is logged and
dropped, never escaping. -/
def triggerAIMove (E : ChessEngine) (gameId : Option String)
    (gameState : Option GameDoc) (userId : Option String) (isAnalyzing : Bool)
    (botMoveStr : String) (now : Nat) : Nat × Except Unit (List GameUpdate) :=
  match gameState with
  | some gs =>
      if gs.status = GameStatus.ACTIVE && gs.isAI && gs.turn = "b" && !isAnalyzing then
        if botMoveStr ≠ "" then
          match E.moveSan gs.fen botMoveStr with
          | none => (1, Except.ok [])
          | some mv =>
              (1, match makeMove E gameId gameState userId mv
                    (E.fenAfterSan gs.fen botMoveStr) now with
                  | Except.error _ => Except.ok []
                  | Except.ok ws => Except.ok ws)
        else (1, Except.ok [])
      else (0, Except.ok [])
  | none => (0, Except.ok [])

/-- getValidFen from the ChessBoard component (src/unnamed/part_000 lines
170-173): a missing, empty (falsy) or literal "start" fen maps to
STARTING_FEN; anything else is passed through unvalidated. -/
def getValidFen (f : Option String) : String :=
  match f with
  | none => STARTING_FEN
  | some s => if s = "" || s = "start" then STARTING_FEN else s

/-- The initial board state, useState(new Chess(getValidFen(fen))) in
part_000 line 175: the constructor is not guarded, so an unparseable fen is
a thrown exception (Except.error), not a fallback. -/
def boardInit (E : ChessEngine) (fen : Option String) : Except Unit String :=
  let validFen := getValidFen fen
  if E.ctorOk validFen then Except.ok validFen else Except.error ()

/-- The snapshot-update path, the useEffect of part_000 lines 178-187: when
the incoming fen differs from the current board, rebuild the board inside
try/catch, falling back to STARTING_FEN on a constructor throw.  Returns the
fen of the board afterwards. -/
def boardUpdate (E : ChessEngine) (fen : Option String) (gameFen : String) :
    String :=
  let validFen := getValidFen fen
  if validFen ≠ gameFen then
    (if E.ctorOk validFen then validFen else STARTING_FEN)
  else gameFen

instance {ε α : Type} [DecidableEq ε] [DecidableEq α] :
    DecidableEq (Except ε α) := fun a b =>
  match a, b with
  | Except.ok x, Except.ok y =>
      if h : x = y then isTrue (by simp [h]) else isFalse (by simp [h])
  | Except.error x, Except.error y =>
      if h : x = y then isTrue (by simp [h]) else isFalse (by simp [h])
  | Except.ok _, Except.error _ => isFalse (by simp)
  | Except.error _, Except.ok _ => isFalse (by simp)

/-! Concrete fixtures used by counterexamples and witnesses.  The engine
instances record the actual chess.js behavior on the named positions. -/

def alice : UserRec := { uid := "alice-uid", email := some "alice@mail.com" }

def bob : UserRec := { uid := "bob-uid", email := some "bob@mail.com" }

def carol : UserRec := { uid := "carol-uid", email := none }

def alicePlayer : PlayerInfo := playerRecord alice none

def bobPlayer : PlayerInfo := playerRecord bob none

/-- A legal position, white Qf7 and Kg6 against the lone black king h8, white
to move.  chess.js facts: the queen move f7-g7 is accepted and delivers
checkmate. -/
def fenMate0 : String := "7k/5Q2/6K1/8/8/8/8/8 w - - 0 1"

/-- The position after Qg7#: black to move, checkmated, game over. -/
def fenMate1 : String := "7k/6Q1/6K1/8/8/8/8/8 b - - 1 1"

def mvQg7 : MoveRec :=
  { fromSq := "f7", toSq := "g7", san := "Qg7#", captured := false }

/-- chess.js on the checkmate scenario: from fenMate0 the move Qg7 succeeds
and yields fenMate1, which is checkmate (hence game over and check). -/
def engineMate : ChessEngine :=
  { moveResult := fun f m => if f = fenMate0 ∧ m = mvQg7 then some mvQg7 else none,
    fenAfter := fun _ _ => fenMate1,
    moveSan := fun f s => if f = fenMate0 ∧ s = "Qg7" then some mvQg7 else none,
    fenAfterSan := fun _ _ => fenMate1,
    isGameOver := fun f => f == fenMate1,
    isCheckmate := fun f => f == fenMate1,
    isCheck := fun f => f == fenMate1,
    ctorOk := fun _ => true }

/-- An ACTIVE two-player session standing at the pre-mate position. -/
def docMate : GameDoc :=
  { white := alicePlayer, black := some bobPlayer, fen := fenMate0,
    turn := "w", status := GameStatus.ACTIVE }

/-- A legal position, white king a1 and rook b1 against the lone black king
h8, halfmove clock 100: chess.js reports isGameOver (fifty-move draw, not
checkmate) while move() still accepts the legal rook moves. -/
def fenFifty : String := "7k/8/8/8/8/8/8/KR6 w - - 100 60"

/-- The position after the accepted rook move b1-b7. -/
def fenFiftyAfter : String := "7k/1R6/8/8/8/8/8/K7 b - - 101 60"

def mvRb7 : MoveRec :=
  { fromSq := "b1", toSq := "b7", san := "Rb7", captured := false }

/-- chess.js on the fifty-move scenario: the rook move is accepted from
fenFifty, and both positions count as game over by the fifty-move rule
without being checkmate. -/
def engineFifty : ChessEngine :=
  { moveResult := fun f m => if f = fenFifty ∧ m = mvRb7 then some mvRb7 else none,
    fenAfter := fun _ _ => fenFiftyAfter,
    moveSan := fun _ _ => none,
    fenAfterSan := fun _ _ => fenFiftyAfter,
    isGameOver := fun f => f == fenFifty || f == fenFiftyAfter,
    isCheckmate := fun _ => false,
    isCheck := fun _ => false,
    ctorOk := fun _ => true }

/-- A session already COMPLETED by the fifty-move draw, still holding the
drawn position. -/
def docFifty : GameDoc :=
  { white := alicePlayer, black := some bobPlayer, fen := fenFifty,
    turn := "w", status := GameStatus.COMPLETED, winner := some "draw" }

/-! Claim theorems. -/

/-- C8: createGame writes a session with white = the creator record, black
absent, status PENDING and the standard starting position as fen, and
returns the new document id. -/
theorem createGame_spec (user : UserRec) (profile : Option ProfileRec)
    (gid : String) (now : Nat) :
    (createGame user profile gid now).1.white = playerRecord user profile ∧
    (createGame user profile gid now).1.white.uid = user.uid ∧
    (createGame user profile gid now).1.black = none ∧
    (createGame user profile gid now).1.fen = STARTING_FEN ∧
    (createGame user profile gid now).1.turn = "w" ∧
    (createGame user profile gid now).1.status = GameStatus.PENDING ∧
    (createGame user profile gid now).2 = gid :=
  ⟨rfl, rfl, rfl, rfl, rfl, rfl, rfl⟩

/-- C4: a makeMove call by a player whose uid-resolved color does not match
the current turn is a silent no-op: no updateDoc is issued, no error is
thrown, and the document is unchanged. -/
theorem makeMove_turn_mismatch_silent_noop (E : ChessEngine) (gid : String)
    (gs : GameDoc) (userId : Option String) (mv : MoveRec) (newFen : String)
    (now : Nat) (h : turnMismatch gs userId = true) :
    makeMove E (some gid) (some gs) userId mv newFen now = Except.ok [] ∧
    applyUpdates gs [] = gs := by
  refine ⟨?_, rfl⟩
  simp [makeMove, h]

/-- Witness for C4: black (bob) attempts a move while it is white's turn in
the concrete mate session; nothing is written. -/
theorem makeMove_turn_mismatch_silent_noop_witness :
    makeMove engineMate (some "g1") (some docMate) (some "bob-uid") mvQg7
        fenMate1 3 = Except.ok [] ∧
    applyUpdates docMate [] = docMate :=
  makeMove_turn_mismatch_silent_noop engineMate "g1" docMate (some "bob-uid")
    mvQg7 fenMate1 3 (by decide)

/-- C1 counterexample: on a session whose status is COMPLETED (a fifty-move
draw whose position still admits engine-accepted moves), a makeMove call by
the in-turn player is not a no-op: it issues both updateDoc writes, and the
resulting document differs from the old one in fen, turn and lastMove. -/
theorem makeMove_completed_session_mutates :
    docFifty.status = GameStatus.COMPLETED ∧
    makeMove engineFifty (some "g1") (some docFifty) (some "alice-uid") mvRb7
        fenFiftyAfter 7
      = Except.ok
          [terminalUpdate engineFifty fenFiftyAfter "w",
           moveUpdate fenFiftyAfter "w" mvRb7 7] ∧
    (applyUpdates docFifty
        [terminalUpdate engineFifty fenFiftyAfter "w",
         moveUpdate fenFiftyAfter "w" mvRb7 7]).fen ≠ docFifty.fen ∧
    (applyUpdates docFifty
        [terminalUpdate engineFifty fenFiftyAfter "w",
         moveUpdate fenFiftyAfter "w" mvRb7 7]).turn ≠ docFifty.turn := by
  refine ⟨rfl, ?_, ?_, ?_⟩ <;> decide

/-- C1 (amended): makeMove never reads the status field: its outcome on a
session with any status value — in particular COMPLETED — is identical to
its outcome on the same session with any other status, so moves outside
ACTIVE are dropped only by the turn check or the engine, not by a status
precondition. -/
theorem makeMove_ignores_status (E : ChessEngine) (gameId : Option String)
    (gs : GameDoc) (s : GameStatus) (userId : Option String) (mv : MoveRec)
    (newFen : String) (now : Nat) :
    makeMove E gameId (some { gs with status := s }) userId mv newFen now
      = makeMove E gameId (some gs) userId mv newFen now := by
  cases gameId <;> rfl

/-- A PENDING session freshly created by carol. -/
def docPending : GameDoc := (createGame carol none "g1" 0).1

/-- Helper: a joinGame call run with no interleaving is exactly its
read phase followed by its write phase against the unchanged store. -/
theorem joinGame_eq_two_phase (gid : String) (store : Option GameDoc)
    (user : UserRec) (profile : Option ProfileRec) (now : Nat) :
    joinGame gid store user profile now
      = joinWritePhase gid store user profile now store := by
  cases store with
  | none => rfl
  | some d =>
      by_cases h1 : d.status = GameStatus.PENDING
      · by_cases h2 : d.white.uid = user.uid
        · simp [joinGame, joinWritePhase, joinGameCheck, h1, h2]
        · simp [joinGame, joinWritePhase, joinGameCheck, h1, h2]
      · simp [joinGame, joinWritePhase, joinGameCheck, h1]

/-- C3 counterexample: the accepted checkmate move produces two distinct
updateDoc calls; the earlier one carries status and winner but no position
field, and the later one carries fen, turn and lastMove but no status or
winner — the terminal fields are not written in the same logical store
update as the new position. -/
theorem makeMove_checkmate_separate_status_write :
    makeMove engineMate (some "g1") (some docMate) (some "alice-uid") mvQg7
        fenMate1 9
      = Except.ok [terminalUpdate engineMate fenMate1 "w",
                   moveUpdate fenMate1 "w" mvQg7 9] ∧
    (terminalUpdate engineMate fenMate1 "w").status? = some GameStatus.COMPLETED ∧
    (terminalUpdate engineMate fenMate1 "w").winner? = some "white" ∧
    (terminalUpdate engineMate fenMate1 "w").fen? = none ∧
    (terminalUpdate engineMate fenMate1 "w").turn? = none ∧
    (terminalUpdate engineMate fenMate1 "w").lastMove? = none ∧
    (moveUpdate fenMate1 "w" mvQg7 9).fen? = some fenMate1 ∧
    (moveUpdate fenMate1 "w" mvQg7 9).status? = none ∧
    (moveUpdate fenMate1 "w" mvQg7 9).winner? = none := by
  refine ⟨?_, ?_, ?_, ?_, ?_, ?_, ?_, ?_, ?_⟩ <;> decide

/-- C3 (amended): on an accepted move whose resulting position is terminal,
makeMove issues exactly two updateDoc calls: first one setting status =
COMPLETED together with winner (the side that just moved on checkmate,
otherwise draw), and then a second, separate one writing fen, turn and
lastMove; the terminal fields are in an earlier write, not in the same
logical update as the position. -/
theorem makeMove_terminal_writes_split (E : ChessEngine) (gid : String)
    (gs : GameDoc) (userId : Option String) (mv r : MoveRec) (newFen : String)
    (now : Nat)
    (hturn : turnMismatch gs userId = false)
    (hmv : E.moveResult gs.fen mv = some r)
    (hterm : E.isGameOver (E.fenAfter gs.fen mv) = true) :
    makeMove E (some gid) (some gs) userId mv newFen now
      = Except.ok [terminalUpdate E (E.fenAfter gs.fen mv) gs.turn,
                   moveUpdate newFen gs.turn mv now] ∧
    (terminalUpdate E (E.fenAfter gs.fen mv) gs.turn).winner?
      = some (if E.isCheckmate (E.fenAfter gs.fen mv) then
          (if gs.turn = "w" then "white" else "black") else "draw") ∧
    (terminalUpdate E (E.fenAfter gs.fen mv) gs.turn).status?
      = some GameStatus.COMPLETED ∧
    (terminalUpdate E (E.fenAfter gs.fen mv) gs.turn).fen? = none := by
  refine ⟨?_, rfl, rfl, rfl⟩
  simp [makeMove, hturn, hmv, hterm]

/-- Witness for C3 (amended): white mates in the concrete session; the two
writes appear in order, with winner white. -/
theorem makeMove_terminal_writes_split_witness :
    makeMove engineMate (some "g1") (some docMate) (some "alice-uid") mvQg7
        fenMate1 13
      = Except.ok [terminalUpdate engineMate (engineMate.fenAfter fenMate0 mvQg7)
                     docMate.turn,
                   moveUpdate fenMate1 docMate.turn mvQg7 13] ∧
    (terminalUpdate engineMate (engineMate.fenAfter fenMate0 mvQg7)
        docMate.turn).winner?
      = some (if engineMate.isCheckmate (engineMate.fenAfter fenMate0 mvQg7) then
          (if docMate.turn = "w" then "white" else "black") else "draw") := by
  have h := makeMove_terminal_writes_split engineMate "g1" docMate
    (some "alice-uid") mvQg7 mvQg7 fenMate1 13 (by decide) (by decide) (by decide)
  exact ⟨h.1, h.2.1⟩

/-- C6: on an accepted in-turn move, makeMove writes fen, the flipped turn,
lastMove = (from, to) and the updated timestamp together in the one final
updateDoc; no emitted update carries turn without also carrying fen, and the
turn of the resulting document is the strict alternation of the previous
one. -/
theorem makeMove_accepted_update_spec (E : ChessEngine) (gid : String)
    (gs : GameDoc) (userId : Option String) (mv r : MoveRec) (newFen : String)
    (now : Nat)
    (hturn : turnMismatch gs userId = false)
    (hmv : E.moveResult gs.fen mv = some r) :
    makeMove E (some gid) (some gs) userId mv newFen now
      = Except.ok ((if E.isGameOver (E.fenAfter gs.fen mv) then
            [terminalUpdate E (E.fenAfter gs.fen mv) gs.turn] else [])
          ++ [moveUpdate newFen gs.turn mv now]) ∧
    (moveUpdate newFen gs.turn mv now).fen? = some newFen ∧
    (moveUpdate newFen gs.turn mv now).turn? = some (flipTurn gs.turn) ∧
    (moveUpdate newFen gs.turn mv now).lastMove? = some (mv.fromSq, mv.toSq) ∧
    (moveUpdate newFen gs.turn mv now).lastUpdated? = some now ∧
    (∀ ws, makeMove E (some gid) (some gs) userId mv newFen now = Except.ok ws →
        ∀ u ∈ ws, u.turn?.isSome → u = moveUpdate newFen gs.turn mv now) ∧
    (∀ ws, makeMove E (some gid) (some gs) userId mv newFen now = Except.ok ws →
        (applyUpdates gs ws).fen = newFen ∧
        (applyUpdates gs ws).turn = flipTurn gs.turn ∧
        (applyUpdates gs ws).lastMove = some (mv.fromSq, mv.toSq) ∧
        (applyUpdates gs ws).lastUpdated = some now) ∧
    ((gs.turn = "w" ∨ gs.turn = "b") → flipTurn gs.turn ≠ gs.turn) := by
  have hmain : makeMove E (some gid) (some gs) userId mv newFen now
      = Except.ok ((if E.isGameOver (E.fenAfter gs.fen mv) then
            [terminalUpdate E (E.fenAfter gs.fen mv) gs.turn] else [])
          ++ [moveUpdate newFen gs.turn mv now]) := by
    simp [makeMove, hturn, hmv]
  refine ⟨hmain, rfl, rfl, rfl, rfl, ?_, ?_, ?_⟩
  · intro ws hws u hu hsome
    rw [hmain] at hws
    cases hws
    by_cases hgo : E.isGameOver (E.fenAfter gs.fen mv)
    · simp [hgo] at hu
      rcases hu with hu | hu
      · rw [hu] at hsome
        simp [terminalUpdate] at hsome
      · exact hu
    · simp [hgo] at hu
      exact hu
  · intro ws hws
    rw [hmain] at hws
    cases hws
    by_cases hgo : E.isGameOver (E.fenAfter gs.fen mv)
    · simp [hgo, applyUpdates, applyUpdate, moveUpdate, terminalUpdate,
        mergeOptField]
    · simp [hgo, applyUpdates, applyUpdate, moveUpdate, mergeOptField]
  · rintro (h | h) <;> rw [h] <;> decide

/-- Witness for C6: the concrete accepted mating move produces the one
position-carrying update as its final write. -/
theorem makeMove_accepted_update_spec_witness :
    makeMove engineMate (some "g1") (some docMate) (some "alice-uid") mvQg7
        fenMate1 11
      = Except.ok [terminalUpdate engineMate fenMate1 "w",
                   moveUpdate fenMate1 "w" mvQg7 11] := by
  have h := (makeMove_accepted_update_spec engineMate "g1" docMate
    (some "alice-uid") mvQg7 mvQg7 fenMate1 11 (by decide) (by decide)).1
  rw [h]
  decide

/-- C5: joinGame fails with SessionNotFound exactly on a missing document,
with SessionNotJoinable exactly on an existing document whose status is not
PENDING, and with SelfJoinRejected exactly on a PENDING document whose white
uid equals the joiner uid (the checks run in that source order); every
failure leaves the store unchanged, and on success it writes black = the
joiner record, status = ACTIVE and the join timestamp. -/
theorem joinGame_error_spec (gid : String) (store : Option GameDoc)
    (user : UserRec) (profile : Option ProfileRec) (now : Nat) :
    ((joinGame gid store user profile now).1
        = Except.error JoinError.SessionNotFound ↔ store = none) ∧
    ((joinGame gid store user profile now).1
        = Except.error JoinError.SessionNotJoinable
      ↔ ∃ d, store = some d ∧ d.status ≠ GameStatus.PENDING) ∧
    ((joinGame gid store user profile now).1
        = Except.error JoinError.SelfJoinRejected
      ↔ ∃ d, store = some d ∧ d.status = GameStatus.PENDING ∧
          d.white.uid = user.uid) ∧
    (∀ e, (joinGame gid store user profile now).1 = Except.error e →
        (joinGame gid store user profile now).2 = store) ∧
    (∀ d, store = some d → d.status = GameStatus.PENDING →
        d.white.uid ≠ user.uid →
        (joinGame gid store user profile now).1 = Except.ok gid ∧
        (joinGame gid store user profile now).2
          = some { d with black := some (playerRecord user profile),
                          status := GameStatus.ACTIVE,
                          startTime := some now }) := by
  cases store with
  | none => simp [joinGame]
  | some d =>
      by_cases h1 : d.status = GameStatus.PENDING
      · by_cases h2 : d.white.uid = user.uid
        · simp [joinGame, h1, h2]
        · simp [joinGame, h1, h2, applyUpdate, joinUpdate, mergeOptField]
      · simp [joinGame, h1]

/-- Witness for C5: a missing document yields SessionNotFound; the creator
joining ther own PENDING session yields SelfJoinRejected. -/
theorem joinGame_error_spec_witness :
    (joinGame "g1" none alice none 4).1
      = Except.error JoinError.SessionNotFound ∧
    (joinGame "g1" (some docPending) carol none 4).1
      = Except.error JoinError.SelfJoinRejected := by
  constructor
  · exact (joinGame_error_spec "g1" none alice none 4).1.mpr rfl
  · exact (joinGame_error_spec "g1" (some docPending) carol none 4).2.2.1.mpr
      ⟨docPending, rfl, by decide, by decide⟩

/-- C2 counterexample: joinGame is a non-atomic read-then-write; in the
interleaving where both joiners read the PENDING snapshot before either
writes, both calls pass the checks and return success, and black is
assigned twice (alice first, then overwritten by bob) — not at most one
winner, no SessionNotJoinable for the loser, black not set exactly once. -/
theorem joinGame_race_two_successes :
    joinGame "g1" (some docPending) alice none 1
      = joinWritePhase "g1" (some docPending) alice none 1 (some docPending) ∧
    (joinWritePhase "g1" (some docPending) alice none 1 (some docPending)).1
      = Except.ok "g1" ∧
    (joinWritePhase "g1" (some docPending) alice none 1 (some docPending)).2
      = some (applyUpdate docPending (joinUpdate alice none 1)) ∧
    (applyUpdate docPending (joinUpdate alice none 1)).black
      = some alicePlayer ∧
    (joinWritePhase "g1" (some docPending) bob none 2
        (some (applyUpdate docPending (joinUpdate alice none 1)))).1
      = Except.ok "g1" ∧
    ((joinWritePhase "g1" (some docPending) bob none 2
        (some (applyUpdate docPending (joinUpdate alice none 1)))).2.map
          GameDoc.black)
      = some (some bobPlayer) := by
  refine ⟨?_, ?_, ?_, ?_, ?_, ?_⟩ <;> decide

/-- C2 (amended): only when the two join calls are serialized does the claim
hold: the first eligible joiner succeeds and activates the session with
black set to them, and the second call then fails with SessionNotJoinable,
leaving the store unchanged. -/
theorem joinGame_serialized_at_most_one (gid : String) (d : GameDoc)
    (uA uB : UserRec) (pA pB : Option ProfileRec) (tA tB : Nat)
    (hp : d.status = GameStatus.PENDING) (hw : d.white.uid ≠ uA.uid) :
    (joinGame gid (some d) uA pA tA).1 = Except.ok gid ∧
    (joinGame gid (some d) uA pA tA).2
      = some (applyUpdate d (joinUpdate uA pA tA)) ∧
    (applyUpdate d (joinUpdate uA pA tA)).black = some (playerRecord uA pA) ∧
    (joinGame gid ((joinGame gid (some d) uA pA tA).2) uB pB tB).1
      = Except.error JoinError.SessionNotJoinable ∧
    (joinGame gid ((joinGame gid (some d) uA pA tA).2) uB pB tB).2
      = (joinGame gid (some d) uA pA tA).2 := by
  have hfirst : joinGame gid (some d) uA pA tA
      = (Except.ok gid, some (applyUpdate d (joinUpdate uA pA tA))) := by
    simp [joinGame, hp, hw]
  have hstatus : (applyUpdate d (joinUpdate uA pA tA)).status
      = GameStatus.ACTIVE := by
    simp [applyUpdate, joinUpdate]
  have hsecond : joinGame gid (some (applyUpdate d (joinUpdate uA pA tA)))
        uB pB tB
      = (Except.error JoinError.SessionNotJoinable,
         some (applyUpdate d (joinUpdate uA pA tA))) := by
    simp [joinGame, hstatus]
  refine ⟨by rw [hfirst], by rw [hfirst], ?_, ?_, ?_⟩
  · simp [applyUpdate, joinUpdate, mergeOptField]
  · rw [hfirst]
    simpa using congrArg Prod.fst hsecond
  · rw [hfirst]
    simpa using congrArg Prod.snd hsecond

/-- Witness for C2 (amended): alice then bob join carol's PENDING session in
sequence; alice wins, bob receives SessionNotJoinable. -/
theorem joinGame_serialized_at_most_one_witness :
    (joinGame "g1" (some docPending) alice none 1).1 = Except.ok "g1" ∧
    (joinGame "g1" (some docPending) alice none 1).2
      = some (applyUpdate docPending (joinUpdate alice none 1)) ∧
    (applyUpdate docPending (joinUpdate alice none 1)).black
      = some (playerRecord alice none) ∧
    (joinGame "g1" ((joinGame "g1" (some docPending) alice none 1).2)
        bob none 2).1
      = Except.error JoinError.SessionNotJoinable ∧
    (joinGame "g1" ((joinGame "g1" (some docPending) alice none 1).2)
        bob none 2).2
      = (joinGame "g1" (some docPending) alice none 1).2 :=
  joinGame_serialized_at_most_one "g1" docPending alice bob none none 1 2
    (by decide) (by decide)

/-- The automated-opponent identity used by the AI fixtures. -/
def botPlayer : PlayerInfo :=
  { uid := "gemini-bot", name := "Gemini", rating := 1500 }

/-- An ACTIVE automated-opponent session where it is the bot's (black's)
turn. -/
def docAI : GameDoc :=
  { white := alicePlayer, black := some botPlayer, fen := fenMate0,
    turn := "b", status := GameStatus.ACTIVE, isAI := true,
    difficulty := "pro" }

/-- C9: in an ACTIVE automated-opponent session on the automated player's
turn, when the move-suggestion service returns an empty string or a string
the engine rejects, the trigger issues exactly one service request, writes
nothing, and surfaces no exception: the session stays ACTIVE with its
position unchanged. -/
theorem triggerAIMove_invalid_move_noop (E : ChessEngine)
    (gid : Option String) (gs : GameDoc) (userId : Option String)
    (botMoveStr : String) (now : Nat)
    (hA : gs.status = GameStatus.ACTIVE) (hai : gs.isAI = true)
    (ht : gs.turn = "b")
    (hbad : botMoveStr = "" ∨ E.moveSan gs.fen botMoveStr = none) :
    triggerAIMove E gid (some gs) userId false botMoveStr now
      = (1, Except.ok []) ∧
    (applyUpdates gs []).status = GameStatus.ACTIVE ∧
    (applyUpdates gs []).fen = gs.fen := by
  refine ⟨?_, ?_, rfl⟩
  · rcases hbad with hb | hb
    · simp [triggerAIMove, hA, hai, ht, hb]
    · by_cases hb0 : botMoveStr = ""
      · simp [triggerAIMove, hA, hai, ht, hb0]
      · simp [triggerAIMove, hA, hai, ht, hb0, hb]
  · simpa [applyUpdates] using hA

/-- Witness for C9: the service answers the junk string Zz9, which the
engine rejects; one request, no writes, no exception. -/
theorem triggerAIMove_invalid_move_noop_witness :
    triggerAIMove engineMate (some "g1") (some docAI) (some "alice-uid")
        false "Zz9" 3 = (1, Except.ok []) ∧
    (applyUpdates docAI []).status = GameStatus.ACTIVE ∧
    (applyUpdates docAI []).fen = docAI.fen :=
  triggerAIMove_invalid_move_noop engineMate (some "g1") docAI
    (some "alice-uid") "Zz9" 3 rfl rfl rfl (Or.inr (by decide))

/-- chess.js constructor behavior with unparseable input: only the recorded
legal fens parse; in particular the string "garbage" throws. -/
def engineStrict : ChessEngine :=
  { moveResult := fun _ _ => none,
    fenAfter := fun f _ => f,
    moveSan := fun _ _ => none,
    fenAfterSan := fun f _ => f,
    isGameOver := fun _ => false,
    isCheckmate := fun _ => false,
    isCheck := fun _ => false,
    ctorOk := fun f => f == STARTING_FEN || f == fenMate0 || f == fenMate1 }

/-- C10 counterexample: the initial board construction is not guarded; with
a fen that is neither absent nor "start" but unparseable, getValidFen passes
it through and useState(new Chess(...)) raises instead of falling back. -/
theorem boardInit_unparseable_raises :
    engineStrict.ctorOk "garbage" = false ∧
    getValidFen (some "garbage") = "garbage" ∧
    boardInit engineStrict (some "garbage") = Except.error () := by
  refine ⟨?_, ?_, ?_⟩ <;> decide

/-- C10 (amended): getValidFen maps an absent, empty or literal "start" fen
to the standard starting position, and a parse failure on the
snapshot-update path is caught and replaced by the starting position, so
that path is total; the initial useState construction, however, is
unguarded, so an unparseable fen raises at first mount. -/
theorem board_fen_fallback (E : ChessEngine) (f : Option String)
    (gameFen : String) (hstart : E.ctorOk STARTING_FEN = true) :
    getValidFen none = STARTING_FEN ∧
    getValidFen (some "") = STARTING_FEN ∧
    getValidFen (some "start") = STARTING_FEN ∧
    boardInit E none = Except.ok STARTING_FEN ∧
    boardInit E (some "start") = Except.ok STARTING_FEN ∧
    (E.ctorOk (getValidFen f) = false → getValidFen f ≠ gameFen →
        boardUpdate E f gameFen = STARTING_FEN) ∧
    (E.ctorOk (getValidFen f) = true →
        boardUpdate E f gameFen = getValidFen f ∨
        boardUpdate E f gameFen = gameFen) := by
  refine ⟨rfl, rfl, rfl, ?_, ?_, ?_, ?_⟩
  · simp [boardInit, getValidFen, hstart]
  · simp [boardInit, getValidFen, hstart]
  · intro hbad hne
    simp [boardUpdate, hne, hbad]
  · intro hok
    by_cases hne : getValidFen f = gameFen
    · right
      simp [boardUpdate, hne]
    · left
      simp [boardUpdate, hne, hok]

/-- Witness for C10 (amended): with the strict engine, an absent fen mounts
as the starting position and the unparseable snapshot "garbage" falls back
to the starting position on the update path. -/
theorem board_fen_fallback_witness :
    boardInit engineStrict none = Except.ok STARTING_FEN ∧
    boardUpdate engineStrict (some "garbage") STARTING_FEN = STARTING_FEN := by
  have h := board_fen_fallback engineStrict (some "garbage") STARTING_FEN
    (by decide)
  exact ⟨h.2.2.2.1, h.2.2.2.2.2.1 (by decide) (by decide)⟩

/-! The reachability model for the winner discipline (C7). -/

/-- Shape of the write list an accepted or rejected makeMove call emits:
nothing, just the position update, or the terminal update followed by the
position update. -/
theorem makeMove_ok_shape (E : ChessEngine) (gameId : Option String)
    (gs : GameDoc) (userId : Option String) (mv : MoveRec) (newFen : String)
    (now : Nat) (ws : List GameUpdate)
    (h : makeMove E gameId (some gs) userId mv newFen now = Except.ok ws) :
    ws = [] ∨ ws = [moveUpdate newFen gs.turn mv now] ∨
    ws = [terminalUpdate E (E.fenAfter gs.fen mv) gs.turn,
          moveUpdate newFen gs.turn mv now] := by
  cases gameId with
  | none =>
      simp [makeMove] at h
      left
      exact h
  | some g =>
      by_cases ht : turnMismatch gs userId = true
      · simp [makeMove, ht] at h
        left
        exact h
      · cases hm : E.moveResult gs.fen mv with
        | none => simp [makeMove, ht, hm] at h
        | some r =>
            by_cases hgo : E.isGameOver (E.fenAfter gs.fen mv) = true
            · right; right
              simp [makeMove, ht, hm, hgo] at h
              exact h.symm
            · right; left
              simp [makeMove, ht, hm, hgo] at h
              exact h.symm

/-- The winner discipline: the winner field is present iff the session is
COMPLETED. -/
def winnerInv (s : Option GameDoc) : Prop :=
  ∀ d, s = some d → (d.winner.isSome ↔ d.status = GameStatus.COMPLETED)

theorem winnerInv_some {d : GameDoc}
    (h : d.winner.isSome ↔ d.status = GameStatus.COMPLETED) :
    winnerInv (some d) := by
  intro d2 hd2
  injection hd2 with h2
  rw [← h2]
  exact h

/-- A joinGame call whose getDoc has returned but whose updateDoc has not
yet landed: the snapshot its checks ran against and the joiner's identity. -/
structure PendingJoin where
  snap : Option GameDoc
  user : UserRec
  profile : Option ProfileRec
  deriving DecidableEq, Repr

/-- A program configuration for one session in the non-atomic model: the
store document plus the join calls currently between their read and their
write. -/
structure Config where
  store : Option GameDoc
  pending : List PendingJoin
  deriving DecidableEq, Repr

/-- One transition of a session under the engine's operations as the source
really runs them: creation by createGame; the getDoc read of a joinGame call
(capturing the current store as its snapshot); the later landing of that
call's write phase — its checks run against the captured, possibly stale,
snapshot while the unconditional updateDoc hits the current store
(joinWritePhase); or the landing of the first k updateDoc writes of one
makeMove call, whose gameState snapshot may likewise be any (possibly stale)
document delivered by onSnapshot.  Prefixes cover the store state between
makeMove's terminal write and its position write. -/
inductive Step : Config → Config → Prop where
  | create (user : UserRec) (profile : Option ProfileRec) (gameId : String)
      (now : Nat) (ps : List PendingJoin) :
      Step ⟨none, ps⟩ ⟨some (createGame user profile gameId now).1, ps⟩
  | joinRead (s : Option GameDoc) (ps : List PendingJoin) (user : UserRec)
      (profile : Option ProfileRec) :
      Step ⟨s, ps⟩ ⟨s, ⟨s, user, profile⟩ :: ps⟩
  | joinWrite (gameId : String) (now : Nat) (s : Option GameDoc)
      (l1 l2 : List PendingJoin) (p : PendingJoin) :
      Step ⟨s, l1 ++ p :: l2⟩
        ⟨(joinWritePhase gameId p.snap p.user p.profile now s).2, l1 ++ l2⟩
  | move (E : ChessEngine) (gameId : Option String) (d snap : GameDoc)
      (userId : Option String) (mv : MoveRec) (newFen : String) (now : Nat)
      (ws : List GameUpdate) (k : Nat) (ps : List PendingJoin)
      (h : makeMove E gameId (some snap) userId mv newFen now = Except.ok ws) :
      Step ⟨some d, ps⟩ ⟨some (applyUpdates d (List.take k ws)), ps⟩

/-- A configuration reachable from the absent document with no join in
flight. -/
def ReachableDoc (c : Config) : Prop :=
  Relation.ReflTransGen Step ⟨none, []⟩ c

/-- One store transition in the serialized-join discipline: as Step, but
every joinGame lands atomically — its updateDoc immediately follows its
getDoc with no interleaving in between, so the checked snapshot is the
current store.  Move snapshots may still be stale.  This deliberately
excludes the stale join write of the non-atomic source join, which the C7
counterexample shows breaking the winner discipline. -/
inductive StepAtomicJoin : Option GameDoc → Option GameDoc → Prop where
  | create (user : UserRec) (profile : Option ProfileRec) (gameId : String)
      (now : Nat) :
      StepAtomicJoin none (some (createGame user profile gameId now).1)
  | join (gameId : String) (s : Option GameDoc) (user : UserRec)
      (profile : Option ProfileRec) (now : Nat) :
      StepAtomicJoin s (joinGame gameId s user profile now).2
  | move (E : ChessEngine) (gameId : Option String) (d snap : GameDoc)
      (userId : Option String) (mv : MoveRec) (newFen : String) (now : Nat)
      (ws : List GameUpdate) (k : Nat)
      (h : makeMove E gameId (some snap) userId mv newFen now = Except.ok ws) :
      StepAtomicJoin (some d) (some (applyUpdates d (List.take k ws)))

/-- A session store state reachable from the absent document when every join
lands atomically. -/
def ReachableAtomicJoin (s : Option GameDoc) : Prop :=
  Relation.ReflTransGen StepAtomicJoin none s

/-- Applying an update that mentions neither winner nor status preserves the
winner discipline. -/
theorem applyUpdate_no_winner_status (d : GameDoc) (u : GameUpdate)
    (hw : u.winner? = none) (hs : u.status? = none) :
    (applyUpdate d u).winner = d.winner ∧ (applyUpdate d u).status = d.status := by
  simp [applyUpdate, hw, hs, mergeOptField]

/-- Applying the terminal update establishes the winner discipline outright:
winner becomes present and status becomes COMPLETED in the same write. -/
theorem applyUpdate_terminal_winnerIff (d : GameDoc) (E : ChessEngine)
    (a t : String) :
    ((applyUpdate d (terminalUpdate E a t)).winner.isSome
      ↔ (applyUpdate d (terminalUpdate E a t)).status = GameStatus.COMPLETED) := by
  simp [applyUpdate, terminalUpdate, mergeOptField]

/-- Every single serialized-join store transition preserves the winner
discipline. -/
theorem step_preserves_winnerInv {s1 s2 : Option GameDoc}
    (hstep : StepAtomicJoin s1 s2) (h1 : winnerInv s1) : winnerInv s2 := by
  revert h1
  induction hstep with
  | create user profile gameId now =>
      intro h1
      apply winnerInv_some
      simp [createGame]
  | join gameId s user profile now =>
      intro h1
      cases s with
      | none =>
          intro d hd
          simp [joinGame] at hd
      | some d0 =>
          by_cases hp : d0.status = GameStatus.PENDING
          · by_cases hu : d0.white.uid = user.uid
            · simpa [joinGame, hp, hu] using h1
            · have hiff := h1 d0 rfl
              have hwin : d0.winner = none := by
                cases hw : d0.winner with
                | none => rfl
                | some w =>
                    rw [hw] at hiff
                    simp at hiff
                    rw [hiff] at hp
                    simp at hp
              have hrun : (joinGame gameId (some d0) user profile now).2
                  = some (applyUpdate d0 (joinUpdate user profile now)) := by
                simp [joinGame, hp, hu]
              rw [hrun]
              apply winnerInv_some
              simp [applyUpdate, joinUpdate, mergeOptField, hwin]
          · simpa [joinGame, hp] using h1
  | move E gameId d0 snap userId mv newFen now ws k h =>
      intro h1
      have hiff := h1 d0 rfl
      apply winnerInv_some
      rcases makeMove_ok_shape E gameId snap userId mv newFen now ws h with
        hws | hws | hws
      · rw [hws]
        simpa [applyUpdates] using hiff
      · rw [hws]
        cases k with
        | zero => simpa [applyUpdates] using hiff
        | succ k2 =>
            have hpres := applyUpdate_no_winner_status d0
              (moveUpdate newFen snap.turn mv now) rfl rfl
            simp [applyUpdates, hpres.1, hpres.2]
            exact hiff
      · rw [hws]
        cases k with
        | zero => simpa [applyUpdates] using hiff
        | succ k2 =>
            cases k2 with
            | zero =>
                simp [applyUpdates]
                exact applyUpdate_terminal_winnerIff d0 E
                  (E.fenAfter snap.fen mv) snap.turn
            | succ k3 =>
                have hterm := applyUpdate_terminal_winnerIff d0 E
                  (E.fenAfter snap.fen mv) snap.turn
                have hpres := applyUpdate_no_winner_status
                  (applyUpdate d0 (terminalUpdate E (E.fenAfter snap.fen mv)
                    snap.turn))
                  (moveUpdate newFen snap.turn mv now) rfl rfl
                simp [applyUpdates, hpres.1, hpres.2]
                exact hterm

/-- C7 (amended): the winner-iff-COMPLETED discipline holds in every session
state reachable when each joinGame lands atomically (serialized joins; move
snapshots may still be stale); with the source's non-atomic join it fails on
a reachable state, per the counterexample.  Moreover whenever a makeMove
write sets winner it sets status COMPLETED in that same write, and the value
is the side that just moved on checkmate and draw on any other terminal
condition. -/
theorem winner_iff_completed_invariant :
    (∀ s, ReachableAtomicJoin s → winnerInv s) ∧
    (∀ (E : ChessEngine) (gameId : Option String) (gs : GameDoc)
        (userId : Option String) (mv : MoveRec) (newFen : String) (now : Nat)
        (ws : List GameUpdate) (u : GameUpdate) (w : String),
      makeMove E gameId (some gs) userId mv newFen now = Except.ok ws →
      u ∈ ws → u.winner? = some w →
      u.status? = some GameStatus.COMPLETED ∧
      w = (if E.isCheckmate (E.fenAfter gs.fen mv) then
            (if gs.turn = "w" then "white" else "black") else "draw")) := by
  constructor
  · intro s hs
    induction hs with
    | refl => intro d hd; cases hd
    | tail hrest hstep ih => exact step_preserves_winnerInv hstep ih
  · intro E gameId gs userId mv newFen now ws u w hok hu hw
    rcases makeMove_ok_shape E gameId gs userId mv newFen now ws hok with
      hws | hws | hws
    · rw [hws] at hu
      simp at hu
    · rw [hws] at hu
      simp at hu
      rw [hu] at hw
      simp [moveUpdate] at hw
    · rw [hws] at hu
      simp at hu
      rcases hu with hu | hu
      · rw [hu] at hw
        simp [terminalUpdate] at hw
        rw [hu]
        exact ⟨rfl, hw.symm⟩
      · rw [hu] at hw
        simp [moveUpdate] at hw

/-- Witness for C7 (amended): the state after carol creates a session and
alice joins it atomically is reachable in the serialized-join discipline,
and satisfies the winner discipline. -/
theorem winner_iff_completed_invariant_witness :
    winnerInv (joinGame "g1" (some docPending) alice none 1).2 := by
  have hreach : ReachableAtomicJoin
      (joinGame "g1" (some docPending) alice none 1).2 := by
    have h1 : StepAtomicJoin (none : Option GameDoc) (some docPending) :=
      StepAtomicJoin.create carol none "g1" 0
    have h2 : StepAtomicJoin (some docPending)
        (joinGame "g1" (some docPending) alice none 1).2 :=
      StepAtomicJoin.join "g1" (some docPending) alice none 1
    exact Relation.ReflTransGen.tail (Relation.ReflTransGen.single h1) h2
  exact winner_iff_completed_invariant.1 _ hreach

/-! The C7 counterexample trace: alice's joinGame reads the PENDING
snapshot, but her unconditional updateDoc lands only after bob has joined
and the game has been played to fool's mate.  The stale write regresses
status to ACTIVE while winner stays present. -/

/-- Position after 1. f3 from the starting position. -/
def fenF3 : String :=
  "rnbqkbnr/pppppppp/8/8/8/5P2/PPPPP1PP/RNBQKBNR b KQkq - 0 1"

/-- Position after 1. f3 e6. -/
def fenE6 : String :=
  "rnbqkbnr/pppp1ppp/4p3/8/8/5P2/PPPPP1PP/RNBQKBNR w KQkq - 0 2"

/-- Position after 1. f3 e6 2. g4 (chess.js v1 omits the non-capturable
en-passant square from fen()). -/
def fenG4 : String :=
  "rnbqkbnr/pppp1ppp/4p3/8/6P1/5P2/PPPPP2P/RNBQKBNR b KQkq - 0 2"

/-- Position after 1. f3 e6 2. g4 Qh4#, the fool's mate: white is
checkmated. -/
def fenFool : String :=
  "rnb1kbnr/pppp1ppp/4p3/8/6Pq/5P2/PPPPP2P/RNBQKBNR w KQkq - 1 3"

def mvF3 : MoveRec :=
  { fromSq := "f2", toSq := "f3", san := "f3", captured := false }

def mvE6 : MoveRec :=
  { fromSq := "e7", toSq := "e6", san := "e6", captured := false }

def mvG4 : MoveRec :=
  { fromSq := "g2", toSq := "g4", san := "g4", captured := false }

def mvQh4 : MoveRec :=
  { fromSq := "d8", toSq := "h4", san := "Qh4#", captured := false }

/-- chess.js along the fool's mate line: each listed move is accepted from
its position, the final position is checkmate (black, who just moved, wins),
and no earlier position is terminal. -/
def engineFool : ChessEngine :=
  { moveResult := fun f m =>
      if f = STARTING_FEN ∧ m = mvF3 then some mvF3
      else if f = fenF3 ∧ m = mvE6 then some mvE6
      else if f = fenE6 ∧ m = mvG4 then some mvG4
      else if f = fenG4 ∧ m = mvQh4 then some mvQh4
      else none,
    fenAfter := fun f _ =>
      if f = STARTING_FEN then fenF3
      else if f = fenF3 then fenE6
      else if f = fenE6 then fenG4
      else fenFool,
    moveSan := fun _ _ => none,
    fenAfterSan := fun f _ => f,
    isGameOver := fun f => f == fenFool,
    isCheckmate := fun f => f == fenFool,
    isCheck := fun f => f == fenFool,
    ctorOk := fun _ => true }

/-- Alice's join call after its getDoc: it saw carol's PENDING session. -/
def pjAlice : PendingJoin := ⟨some docPending, alice, none⟩

/-- Bob's join call after its getDoc of the same PENDING session. -/
def pjBob : PendingJoin := ⟨some docPending, bob, none⟩

/-- The store after bob's join write lands: ACTIVE, black = bob. -/
def dJoinBob : GameDoc := applyUpdate docPending (joinUpdate bob none 1)

/-- The store after carol (white) plays 1. f3. -/
def dF3 : GameDoc := applyUpdate dJoinBob (moveUpdate fenF3 "w" mvF3 2)

/-- The store after bob (black) plays 1... e6. -/
def dE6 : GameDoc := applyUpdate dF3 (moveUpdate fenE6 "b" mvE6 3)

/-- The store after carol plays 2. g4. -/
def dG4 : GameDoc := applyUpdate dE6 (moveUpdate fenG4 "w" mvG4 4)

/-- The store after bob plays 2... Qh4#: both makeMove writes have landed,
so status = COMPLETED and winner = black. -/
def dMate : GameDoc :=
  applyUpdates dG4
    [terminalUpdate engineFool fenFool "b", moveUpdate fenFool "b" mvQh4 5]

/-- The store after alice's stale join write finally lands on the completed
game: status regressed to ACTIVE, black overwritten, winner still black. -/
def docStale : GameDoc := applyUpdate dMate (joinUpdate alice none 6)

/-- C7 counterexample: under the source's non-atomic join, the program
reaches a session state with winner present and status ACTIVE — alice reads
the PENDING session, bob joins it, the game is played to checkmate
(COMPLETED, winner black), and then alice's unconditional join write lands.
The claimed winner-iff-COMPLETED invariant fails at this reachable state. -/
theorem winner_present_while_active :
    ReachableDoc ⟨some docStale, []⟩ ∧
    docStale.winner = some "black" ∧
    docStale.status = GameStatus.ACTIVE ∧
    ¬ winnerInv (some docStale) := by
  refine ⟨?_, by decide, by decide, ?_⟩
  · have e1 : Step ⟨none, []⟩ ⟨some docPending, []⟩ :=
      Step.create carol none "g1" 0 []
    have e2 : Step ⟨some docPending, []⟩ ⟨some docPending, [pjAlice]⟩ :=
      Step.joinRead (some docPending) [] alice none
    have e3 : Step ⟨some docPending, [pjAlice]⟩
        ⟨some docPending, [pjBob, pjAlice]⟩ :=
      Step.joinRead (some docPending) [pjAlice] bob none
    have e4 : Step ⟨some docPending, [pjBob, pjAlice]⟩
        ⟨some dJoinBob, [pjAlice]⟩ := by
      have h := Step.joinWrite "g1" 1 (some docPending) [] [pjAlice] pjBob
      have hs : (joinWritePhase "g1" pjBob.snap pjBob.user pjBob.profile 1
          (some docPending)).2 = some dJoinBob := by decide
      rw [hs] at h
      exact h
    have e5 : Step ⟨some dJoinBob, [pjAlice]⟩ ⟨some dF3, [pjAlice]⟩ := by
      have h := Step.move engineFool (some "g1") dJoinBob dJoinBob
        (some "carol-uid") mvF3 fenF3 2 [moveUpdate fenF3 "w" mvF3 2] 1
        [pjAlice] (by decide)
      exact h
    have e6 : Step ⟨some dF3, [pjAlice]⟩ ⟨some dE6, [pjAlice]⟩ := by
      have h := Step.move engineFool (some "g1") dF3 dF3
        (some "bob-uid") mvE6 fenE6 3 [moveUpdate fenE6 "b" mvE6 3] 1
        [pjAlice] (by decide)
      exact h
    have e7 : Step ⟨some dE6, [pjAlice]⟩ ⟨some dG4, [pjAlice]⟩ := by
      have h := Step.move engineFool (some "g1") dE6 dE6
        (some "carol-uid") mvG4 fenG4 4 [moveUpdate fenG4 "w" mvG4 4] 1
        [pjAlice] (by decide)
      exact h
    have e8 : Step ⟨some dG4, [pjAlice]⟩ ⟨some dMate, [pjAlice]⟩ := by
      have h := Step.move engineFool (some "g1") dG4 dG4
        (some "bob-uid") mvQh4 fenFool 5
        [terminalUpdate engineFool fenFool "b", moveUpdate fenFool "b" mvQh4 5]
        2 [pjAlice] (by decide)
      exact h
    have e9 : Step ⟨some dMate, [pjAlice]⟩ ⟨some docStale, []⟩ := by
      have h := Step.joinWrite "g1" 6 (some dMate) [] [] pjAlice
      have hs : (joinWritePhase "g1" pjAlice.snap pjAlice.user pjAlice.profile
          6 (some dMate)).2 = some docStale := by decide
      rw [hs] at h
      exact h
    exact Relation.ReflTransGen.tail (Relation.ReflTransGen.tail
      (Relation.ReflTransGen.tail (Relation.ReflTransGen.tail
        (Relation.ReflTransGen.tail (Relation.ReflTransGen.tail
          (Relation.ReflTransGen.tail (Relation.ReflTransGen.tail
            (Relation.ReflTransGen.single e1) e2) e3) e4) e5) e6) e7) e8) e9
  · intro h
    exact absurd (h docStale rfl) (by decide)

end KhmerChess
